import Mathlib

/-!
Verification of the AI-model registration and risk-scoring tool
(src/app.py and src/test_app.py) against its natural-language
specification.

The scoring engine is embedded from `calculate_inherent_risk` in
src/test_app.py.  Python dictionaries are modelled as association lists
with Python dict semantics: lookup returns the first (and, for lists
arising from Python dicts, only) binding of a key; assignment replaces
the value of an existing key in place and otherwise appends the new
binding at the end, mirroring insertion order.
-/

/-- A Python/JSON value as it occurs in the records handled by the app:
strings, ints, nested dicts and None. -/
inductive Val where
  | str : String → Val
  | int : Int → Val
  | obj : List (String × Val) → Val
  | null : Val

/-- Python truthiness for the values above (`if value and ...`). -/
def pyTruthy : Val → Bool
  | Val.str s => s != ""
  | Val.int n => n != 0
  | Val.obj l => !l.isEmpty
  | Val.null => false

/-- Dictionary lookup, `d.get(k)`: the first binding of `k`, if any. -/
def alget {α : Type} : List (String × α) → String → Option α
  | [], _ => none
  | p :: rest, k => if p.1 = k then some p.2 else alget rest k

/-- Dictionary assignment `d[k] = v`: replace the value of an existing
key in place, otherwise append the binding at the end. -/
def pyInsert {α : Type} : List (String × α) → String → α → List (String × α)
  | [], k, v => [(k, v)]
  | p :: rest, k, v => if p.1 = k then (k, v) :: rest else p :: pyInsert rest k v

/-- Merging `{**d, k1: v1, ...}`: insert the bindings left to right. -/
def pyUpdate {α : Type} (d : List (String × α)) (kvs : List (String × α)) : List (String × α) :=
  kvs.foldl (fun acc p => pyInsert acc p.1 p.2) d

/-- RISK_SCORING_TABLE from src/test_app.py.  The inner Python value
`\{'points': p\}` is embedded as the number `p` itself. -/
def RISK_SCORING_TABLE : List (String × List (String × Nat)) :=
  [("decision_criticality", [("Low", 1), ("Medium", 2), ("High", 3)]),
   ("data_sensitivity", [("Public", 1), ("Confidential", 2), ("Restricted", 3)]),
   ("automation_level", [("Manual", 1), ("Semi-Automated", 2), ("Fully Automated", 3)]),
   ("regulatory_materiality", [("Low", 1), ("Medium", 2), ("High", 3)])]

/-- TIER_THRESHOLDS from src/test_app.py, in dict insertion order:
(tier name, min_score, max_score, description). -/
def TIER_THRESHOLDS : List (String × Nat × Nat × String) :=
  [("Low", 4, 7, "Minimal oversight needed"),
   ("Medium", 8, 10, "Standard oversight needed"),
   ("High", 11, 12, "Intensive oversight needed")]

/-- SCORING_VERSION from src/test_app.py. -/
def SCORING_VERSION : String := "1.0"

/-- The fixed factor list hard-coded in `calculate_inherent_risk`. -/
def FACTORS : List String :=
  ["decision_criticality", "data_sensitivity", "automation_level", "regulatory_materiality"]

/-- The dictionary returned by `calculate_inherent_risk`, as a record.
`score_breakdown` is the factor-keyed dict of
`\{'value': level, 'points': points\}` entries, kept in insertion order
as a list of (factor, level, points) triples. -/
structure ScoredResult where
  inherent_risk_score : Nat
  proposed_risk_tier : String
  proposed_tier_description : String
  score_breakdown : List (String × String × Nat)
  scoring_version : String
deriving DecidableEq

/-- The factor loop of `calculate_inherent_risk`: for each factor, read
the selected value; skip falsy values; evaluating `risk_table[factor]`
for a truthy value raises KeyError (`none`) when the factor is missing
from the table; an unrecognized level is skipped; a recognized level
adds its points to the total and its entry to the breakdown. -/
def scoreFactors (md : List (String × Val)) (table : List (String × List (String × Nat))) :
    List String → Option (Nat × List (String × String × Nat))
  | [] => some (0, [])
  | f :: fs =>
    match alget md f with
    | none => scoreFactors md table fs
    | some v =>
      if pyTruthy v then
        match alget table f with
        | none => none
        | some sub =>
          match v with
          | Val.str lvl =>
            match alget sub lvl with
            | none => scoreFactors md table fs
            | some pts => (scoreFactors md table fs).map (fun r => (pts + r.1, (f, lvl, pts) :: r.2))
          | _ => scoreFactors md table fs
      else scoreFactors md table fs

/-- The tier loop of `calculate_inherent_risk`: scan the thresholds in
dict order and return the first tier whose closed interval contains the
score; if none matches, fall back to ("Unknown", ""). -/
def findTier : List (String × Nat × Nat × String) → Nat → String × String
  | [], _ => ("Unknown", "")
  | (tier, mn, mx, desc) :: rest, s =>
    if mn ≤ s ∧ s ≤ mx then (tier, desc) else findTier rest s

/-- `calculate_inherent_risk` from src/test_app.py.  `none` models an
uncaught KeyError; otherwise the returned dict is the ScoredResult. -/
def calculate_inherent_risk (md : List (String × Val))
    (table : List (String × List (String × Nat)))
    (thresholds : List (String × Nat × Nat × String)) (version : String) :
    Option ScoredResult :=
  (scoreFactors md table FACTORS).map (fun r =>
    { inherent_risk_score := r.1
      proposed_risk_tier := (findTier thresholds r.1).1
      proposed_tier_description := (findTier thresholds r.1).2
      score_breakdown := r.2
      scoring_version := version })

/-- Points configured for a level of a factor in RISK_SCORING_TABLE. -/
def levelPoints (f l : String) : Option Nat :=
  (alget RISK_SCORING_TABLE f).bind (fun sub => alget sub l)

/-- Raw attribute input handed to the normalizer, mirroring the
`raw_model_details` dict built in src/app.py: required attributes are
strings, the optionals and the audit fields are Options. -/
structure RawDetails where
  model_name : String
  business_use : String
  domain : String
  model_type : String
  decision_criticality : String
  data_sensitivity : String
  automation_level : String
  deployment_mode : String
  regulatory_materiality : String
  owner_team : Option String
  model_stage : Option String
  deployment_region : Option String
  model_id : Option String
  registered_at : Option String
deriving DecidableEq

/-- The canonical ModelRecord produced by the normalizer: identifier and
creation timestamp are definite, optional metadata keeps its explicit
absent marker. -/
structure ModelRecord where
  model_name : String
  business_use : String
  domain : String
  model_type : String
  decision_criticality : String
  data_sensitivity : String
  automation_level : String
  deployment_mode : String
  regulatory_materiality : String
  owner_team : Option String
  model_stage : Option String
  deployment_region : Option String
  model_id : String
  registered_at : String
deriving DecidableEq

/-- The required attributes of a raw submission, paired with their
values, in the order of the `required_fields_check` dict of src/app.py. -/
def requiredRaw (raw : RawDetails) : List (String × String) :=
  [("model_name", raw.model_name), ("business_use", raw.business_use),
   ("domain", raw.domain), ("model_type", raw.model_type),
   ("decision_criticality", raw.decision_criticality),
   ("data_sensitivity", raw.data_sensitivity),
   ("automation_level", raw.automation_level),
   ("regulatory_materiality", raw.regulatory_materiality),
   ("deployment_mode", raw.deployment_mode)]

/-- Names of the required attributes that are absent or empty. -/
def missingRaw (raw : RawDetails) : List String :=
  ((requiredRaw raw).filter (fun p => p.2 == "")).map Prod.fst

/-- Modelled from the spec: the Registration Normalizer `normalize` (embedded here as `normalizeRaw`) is
part of source.py, which the repository imports but which is not under
src/ (src/test_app.py carries only a fixed-clock test mock of it).
Following section 4.1 of the spec: it fails with a ValidationError
naming the missing required attributes when any is absent or empty; it
preserves an identifier already carried by the raw input verbatim and
otherwise uses a freshly generated one (`freshId`); it keeps a creation
timestamp already carried by the raw input and otherwise assigns the
current time (`now`); optional attributes keep their explicit absent
marker. -/
def normalizeRaw (freshId now : String) (raw : RawDetails) : Except (List String) ModelRecord :=
  if missingRaw raw = [] then
    Except.ok
      { model_name := raw.model_name
        business_use := raw.business_use
        domain := raw.domain
        model_type := raw.model_type
        decision_criticality := raw.decision_criticality
        data_sensitivity := raw.data_sensitivity
        automation_level := raw.automation_level
        deployment_mode := raw.deployment_mode
        regulatory_materiality := raw.regulatory_materiality
        owner_team := raw.owner_team
        model_stage := raw.model_stage
        deployment_region := raw.deployment_region
        model_id := raw.model_id.getD freshId
        registered_at := raw.registered_at.getD now }
  else Except.error (missingRaw raw)

/-- Re-submission view of a canonical record: the raw input produced by
handing the record back to the normalizer, its identifier and timestamp
now present. -/
def recordToRaw (r : ModelRecord) : RawDetails :=
  { model_name := r.model_name
    business_use := r.business_use
    domain := r.domain
    model_type := r.model_type
    decision_criticality := r.decision_criticality
    data_sensitivity := r.data_sensitivity
    automation_level := r.automation_level
    deployment_mode := r.deployment_mode
    regulatory_materiality := r.regulatory_materiality
    owner_team := r.owner_team
    model_stage := r.model_stage
    deployment_region := r.deployment_region
    model_id := some r.model_id
    registered_at := some r.registered_at }

/-- An optional string as a Python value: None for the absent marker. -/
def optV : Option String → Val
  | some s => Val.str s
  | none => Val.null

/-- The canonical record as the dict stored in
`st.session_state[\x22model_details\x22]`. -/
def recordToDict (r : ModelRecord) : List (String × Val) :=
  [("model_name", Val.str r.model_name), ("business_use", Val.str r.business_use),
   ("domain", Val.str r.domain), ("model_type", Val.str r.model_type),
   ("decision_criticality", Val.str r.decision_criticality),
   ("data_sensitivity", Val.str r.data_sensitivity),
   ("automation_level", Val.str r.automation_level),
   ("deployment_mode", Val.str r.deployment_mode),
   ("regulatory_materiality", Val.str r.regulatory_materiality),
   ("owner_team", optV r.owner_team), ("model_stage", optV r.model_stage),
   ("deployment_region", optV r.deployment_region),
   ("model_id", Val.str r.model_id), ("registered_at", Val.str r.registered_at)]

/-- The score breakdown as the nested dict it is in the stored record. -/
def breakdownVal (b : List (String × String × Nat)) : Val :=
  Val.obj (b.map (fun e => (e.1, Val.obj [("value", Val.str e.2.1), ("points", Val.int e.2.2)])))

/-- Merging the scoring outcome into the record dict. -/
def scoredDict (md : List (String × Val)) (res : ScoredResult) : List (String × Val) :=
  pyUpdate md
    [("inherent_risk_score", Val.int res.inherent_risk_score),
     ("proposed_risk_tier", Val.str res.proposed_risk_tier),
     ("proposed_tier_description", Val.str res.proposed_tier_description),
     ("score_breakdown", breakdownVal res.score_breakdown),
     ("scoring_version", Val.str res.scoring_version)]

/-- Modelled from the spec: `assess_model_risk` is defined in source.py,
which is not under src/.  Per sections 2 and 4 of the spec it is the
normalize-then-score pipeline: normalization errors propagate as
ValidationError, and the scoring step is the embedded
`calculate_inherent_risk` applied with the configured table, thresholds
and version. -/
def assess_model_risk (freshId now : String) (raw : RawDetails) :
    Except (List String) (List (String × Val)) :=
  match normalizeRaw freshId now raw with
  | Except.error ms => Except.error ms
  | Except.ok rec =>
    match calculate_inherent_risk (recordToDict rec) RISK_SCORING_TABLE TIER_THRESHOLDS
        SCORING_VERSION with
    | some res => Except.ok (scoredDict (recordToDict rec) res)
    | none => Except.error []

/-- The registration form values of src/app.py, all plain strings as
delivered by the text inputs and selectboxes. -/
structure FormInput where
  model_name : String
  business_use : String
  domain : String
  model_type : String
  decision_criticality : String
  data_sensitivity : String
  automation_level : String
  regulatory_materiality : String
  deployment_mode : String
  owner_team : String
  model_stage : String
  deployment_region : String
deriving DecidableEq

/-- The `required_fields_check` dict of src/app.py, in its insertion
order. -/
def required_fields_check (f : FormInput) : List (String × String) :=
  [("model_name", f.model_name), ("business_use", f.business_use),
   ("domain", f.domain), ("model_type", f.model_type),
   ("decision_criticality", f.decision_criticality),
   ("data_sensitivity", f.data_sensitivity),
   ("automation_level", f.automation_level),
   ("regulatory_materiality", f.regulatory_materiality),
   ("deployment_mode", f.deployment_mode)]

/-- The `missing_fields` comprehension of src/app.py: the names of the
required fields whose value is falsy (the empty string). -/
def missing_fields (f : FormInput) : List String :=
  ((required_fields_check f).filter (fun p => p.2 == "")).map Prod.fst

/-- The `raw_model_details` dict built by src/app.py on submission:
form values, empty optionals turned into the explicit absent marker,
the identifier preserved from the session record if already generated,
and no timestamp passed. -/
def raw_model_details (f : FormInput) (prior : List (String × Val)) : RawDetails :=
  { model_name := f.model_name
    business_use := f.business_use
    domain := f.domain
    model_type := f.model_type
    decision_criticality := f.decision_criticality
    data_sensitivity := f.data_sensitivity
    automation_level := f.automation_level
    deployment_mode := f.deployment_mode
    regulatory_materiality := f.regulatory_materiality
    owner_team := if f.owner_team = "" then none else some f.owner_team
    model_stage := if f.model_stage = "" then none else some f.model_stage
    deployment_region := if f.deployment_region = "" then none else some f.deployment_region
    model_id :=
      match alget prior "model_id" with
      | some (Val.str s) => some s
      | _ => none
    registered_at := none }

/-- The page-1 session state relevant to registration. -/
structure SessionState where
  model_details : List (String × Val)
  model_registered : Bool

/-- Outcome of a form submission, as surfaced by src/app.py: either the
error message naming the missing fields, or success. -/
inductive SubmitOutcome where
  | validationError : List String → SubmitOutcome
  | success : SubmitOutcome

/-- The submission handler of src/app.py: if any required field is
missing, report exactly the missing field names and leave the session
state unchanged; otherwise assess the model and store the scored
record. -/
def handleSubmit (freshId now : String) (f : FormInput) (st : SessionState) :
    SessionState × SubmitOutcome :=
  if missing_fields f = [] then
    match assess_model_risk freshId now (raw_model_details f st.model_details) with
    | Except.ok md => ({ model_details := md, model_registered := true }, SubmitOutcome.success)
    | Except.error ms => (st, SubmitOutcome.validationError ms)
  else (st, SubmitOutcome.validationError (missing_fields f))

/-- The `export_data` dict of src/app.py: the stored record merged with
the narrative fields (empty optional narratives exported as None) and
the export format marker. -/
def export_data (details : List (String × Val))
    (narrative mitigations open_questions : String) : List (String × Val) :=
  pyUpdate details
    [("owner_risk_narrative", Val.str narrative),
     ("mitigations_proposed", if mitigations = "" then Val.null else Val.str mitigations),
     ("open_questions", if open_questions = "" then Val.null else Val.str open_questions),
     ("export_format_version", Val.str "lab1_export_v1")]

/-- Truthiness of a dict lookup, `_safe_get` plus Python truthiness. -/
def truthyOpt : Option Val → Bool
  | some v => pyTruthy v
  | none => false

/-- The import path of src/app.py (the `import_uploader` handler): the
envelope is rejected unless its export format marker is the exact
string and its model_id and model_name are truthy; an accepted envelope
is stored wholesale as the new model_details record. -/
def importArtifact (imported : List (String × Val)) : Option (List (String × Val)) :=
  match alget imported "export_format_version" with
  | some (Val.str s) =>
    if s = "lab1_export_v1" then
      if truthyOpt (alget imported "model_id") && truthyOpt (alget imported "model_name") then
        some imported
      else none
    else none
  | _ => none

/-- The categorical selections of a record, per section 6 of the spec. -/
def CATEGORICAL_FIELDS : List String :=
  ["domain", "model_type", "deployment_mode", "decision_criticality",
   "data_sensitivity", "automation_level", "regulatory_materiality"]


/-! ## Association-list lemmas -/

lemma alget_pyInsert_self {α : Type} (d : List (String × α)) (k : String) (v : α) :
    alget (pyInsert d k v) k = some v := by
  induction d with
  | nil => simp [pyInsert, alget]
  | cons p rest ih =>
    by_cases h : p.1 = k
    · simp [pyInsert, alget, h]
    · simp [pyInsert, alget, h, ih]

lemma alget_pyInsert_ne {α : Type} (d : List (String × α)) (k q : String) (v : α)
    (h : k ≠ q) : alget (pyInsert d q v) k = alget d k := by
  have hq : ¬(q = k) := fun e => h e.symm
  induction d with
  | nil => simp [pyInsert, alget, hq]
  | cons p rest ih =>
    by_cases hp : p.1 = q
    · simp [pyInsert, alget, hp, hq]
    · by_cases hk : p.1 = k
      · simp [pyInsert, alget, hp, hk, h]
      · simp [pyInsert, alget, hp, hk, ih]

lemma mem_filter_empty_iff (l : List (String × String)) (n : String) :
    n ∈ (l.filter (fun p => p.2 == "")).map Prod.fst ↔ (n, "") ∈ l := by
  constructor
  · intro h
    obtain ⟨p, hp, he⟩ := List.mem_map.mp h
    obtain ⟨hpl, hpe⟩ := List.mem_filter.mp hp
    have h2 : p.2 = "" := by simpa using hpe
    have : p = (n, "") := by
      cases p with
      | mk a b => simp only at he h2; rw [he, h2]
    rwa [this] at hpl
  · intro h
    exact List.mem_map.mpr ⟨(n, ""), List.mem_filter.mpr ⟨h, by simp⟩, rfl⟩

/-! ## Tier-scan lemmas -/

lemma findTier_low (s : Nat) (h1 : 4 ≤ s) (h2 : s ≤ 7) :
    findTier TIER_THRESHOLDS s = ("Low", "Minimal oversight needed") := by
  simp only [TIER_THRESHOLDS, findTier]
  rw [if_pos ⟨h1, h2⟩]

lemma findTier_medium (s : Nat) (h1 : 8 ≤ s) (h2 : s ≤ 10) :
    findTier TIER_THRESHOLDS s = ("Medium", "Standard oversight needed") := by
  simp only [TIER_THRESHOLDS, findTier]
  rw [if_neg (by omega), if_pos ⟨h1, h2⟩]

lemma findTier_high (s : Nat) (h1 : 11 ≤ s) (h2 : s ≤ 12) :
    findTier TIER_THRESHOLDS s = ("High", "Intensive oversight needed") := by
  simp only [TIER_THRESHOLDS, findTier]
  rw [if_neg (by omega), if_neg (by omega), if_pos ⟨h1, h2⟩]

lemma findTier_in_range_ne_unknown (s : Nat) (h1 : 4 ≤ s) (h2 : s ≤ 12) :
    (findTier TIER_THRESHOLDS s).1 ≠ "Unknown" := by
  rcases Nat.lt_or_ge s 8 with h | h
  · rw [findTier_low s h1 (by omega)]; decide
  · rcases Nat.lt_or_ge s 11 with h3 | h3
    · rw [findTier_medium s h (by omega)]; decide
    · rw [findTier_high s h3 h2]; decide

lemma calculate_tier_eq_findTier (md : List (String × Val))
    (table : List (String × List (String × Nat)))
    (th : List (String × Nat × Nat × String)) (v : String) (res : ScoredResult)
    (h : calculate_inherent_risk md table th v = some res) :
    (res.proposed_risk_tier, res.proposed_tier_description) =
      findTier th res.inherent_risk_score := by
  unfold calculate_inherent_risk at h
  cases hsf : scoreFactors md table FACTORS with
  | none => rw [hsf] at h; simp at h
  | some r =>
    rw [hsf] at h
    simp only [Option.map_some'] at h
    obtain rfl := Option.some.inj h
    rfl

/-! ## Claim C1 -/

/-- Claim C1 (code bug evidence): on a record whose decision_criticality
level "Experimental" is not a key of the scoring table, the embedded
`calculate_inherent_risk` does not fail: it silently skips the factor,
awards it zero points, and returns a successful score of 9 with tier
Medium and a breakdown that omits the factor — rather than raising an
UnknownCategoryError naming the factor and level as the claim states. -/
theorem c1_unknown_level_silently_skipped :
    calculate_inherent_risk
      [("decision_criticality", Val.str "Experimental"),
       ("data_sensitivity", Val.str "Restricted"),
       ("automation_level", Val.str "Fully Automated"),
       ("regulatory_materiality", Val.str "High")]
      RISK_SCORING_TABLE TIER_THRESHOLDS SCORING_VERSION =
    some { inherent_risk_score := 9, proposed_risk_tier := "Medium",
           proposed_tier_description := "Standard oversight needed",
           score_breakdown :=
             [("data_sensitivity", "Restricted", 3),
              ("automation_level", "Fully Automated", 3),
              ("regulatory_materiality", "High", 3)],
           scoring_version := "1.0" } := by decide

/-! ## Claim C2 -/

/-- Claim C2 (code bug evidence): on a record whose computed total score
0 falls outside every configured tier range, the embedded
`calculate_inherent_risk` does not fail: it returns the default tier
"Unknown" with an empty description — rather than raising an
UnscoredRangeError as the claim states. -/
theorem c2_out_of_range_defaults_to_unknown :
    calculate_inherent_risk
      [("decision_criticality", Val.str "N/A"),
       ("data_sensitivity", Val.str "N/A"),
       ("automation_level", Val.str "N/A"),
       ("regulatory_materiality", Val.str "N/A")]
      RISK_SCORING_TABLE TIER_THRESHOLDS SCORING_VERSION =
    some { inherent_risk_score := 0, proposed_risk_tier := "Unknown",
           proposed_tier_description := "",
           score_breakdown := [], scoring_version := "1.0" } := by decide

/-! ## Claim C4 -/

/-- Claim C4: tier assignment is a pure function of the total score —
the tier and description of every scoring result are exactly the first
entry of the threshold scan at that score — and under the configured
thresholds every score from 4 to 7 is assigned tier Low, 8 to 10 tier
Medium, 11 to 12 tier High, and no score in that range yields the
fallback tier "Unknown". -/
theorem c4_tier_assignment_pure_and_total :
    (∀ (md : List (String × Val)) (table : List (String × List (String × Nat)))
       (th : List (String × Nat × Nat × String)) (v : String) (res : ScoredResult),
       calculate_inherent_risk md table th v = some res →
       (res.proposed_risk_tier, res.proposed_tier_description) =
         findTier th res.inherent_risk_score) ∧
    (∀ s : Nat, 4 ≤ s → s ≤ 7 →
       findTier TIER_THRESHOLDS s = ("Low", "Minimal oversight needed")) ∧
    (∀ s : Nat, 8 ≤ s → s ≤ 10 →
       findTier TIER_THRESHOLDS s = ("Medium", "Standard oversight needed")) ∧
    (∀ s : Nat, 11 ≤ s → s ≤ 12 →
       findTier TIER_THRESHOLDS s = ("High", "Intensive oversight needed")) ∧
    (∀ s : Nat, 4 ≤ s → s ≤ 12 → (findTier TIER_THRESHOLDS s).1 ≠ "Unknown") :=
  ⟨calculate_tier_eq_findTier, findTier_low, findTier_medium, findTier_high,
   findTier_in_range_ne_unknown⟩

/-- Witness for claim C4 at concrete scores. -/
theorem c4_tier_assignment_witness :
    findTier TIER_THRESHOLDS 5 = ("Low", "Minimal oversight needed") ∧
    findTier TIER_THRESHOLDS 9 = ("Medium", "Standard oversight needed") ∧
    findTier TIER_THRESHOLDS 12 = ("High", "Intensive oversight needed") ∧
    (findTier TIER_THRESHOLDS 7).1 ≠ "Unknown" :=
  ⟨c4_tier_assignment_pure_and_total.2.1 5 (by decide) (by decide),
   c4_tier_assignment_pure_and_total.2.2.1 9 (by decide) (by decide),
   c4_tier_assignment_pure_and_total.2.2.2.1 12 (by decide) (by decide),
   c4_tier_assignment_pure_and_total.2.2.2.2 7 (by decide) (by decide)⟩

/-! ## Scoring-loop lemmas -/

lemma alget_some_mem {α : Type} (d : List (String × α)) (k : String) (v : α)
    (h : alget d k = some v) : (k, v) ∈ d := by
  induction d with
  | nil => simp [alget] at h
  | cons p rest ih =>
    rcases p with ⟨a, b⟩
    by_cases hp : a = k
    · simp [alget, hp] at h
      subst hp
      subst h
      exact List.mem_cons_self _ _
    · simp [alget, hp] at h
      exact List.mem_cons_of_mem _ (ih h)

lemma levelPoints_range (f l : String) (p : Nat) (h : levelPoints f l = some p) :
    l ≠ "" ∧ 1 ≤ p ∧ p ≤ 3 := by
  unfold levelPoints at h
  cases hf : alget RISK_SCORING_TABLE f with
  | none => rw [hf] at h; simp at h
  | some sub =>
    rw [hf] at h
    simp only [Option.some_bind] at h
    have hm := alget_some_mem _ _ _ hf
    have hm2 := alget_some_mem _ _ _ h
    simp only [RISK_SCORING_TABLE, List.mem_cons, List.not_mem_nil, or_false,
      Prod.mk.injEq] at hm
    rcases hm with ⟨_, hs⟩ | ⟨_, hs⟩ | ⟨_, hs⟩ | ⟨_, hs⟩ <;>
      (subst hs;
       simp only [List.mem_cons, List.not_mem_nil, or_false, Prod.mk.injEq] at hm2;
       rcases hm2 with ⟨hl, hp⟩ | ⟨hl, hp⟩ | ⟨hl, hp⟩ <;> (subst hl; subst hp; refine ⟨by decide, by decide, by decide⟩))

lemma scoreFactors_cons_found (md : List (String × Val))
    (table : List (String × List (String × Nat))) (f : String) (fs : List String)
    (lvl : String) (pts : Nat) (sub : List (String × Nat))
    (hmd : alget md f = some (Val.str lvl)) (hl : lvl ≠ "")
    (ht : alget table f = some sub) (hp : alget sub lvl = some pts) :
    scoreFactors md table (f :: fs) =
      (scoreFactors md table fs).map (fun r => (pts + r.1, (f, lvl, pts) :: r.2)) := by
  have htruthy : pyTruthy (Val.str lvl) = true := by simp [pyTruthy, hl]
  simp only [scoreFactors, hmd, htruthy, ht, hp, if_true]

lemma scoreFactors_found (md : List (String × Val)) (l1 l2 l3 l4 : String)
    (p1 p2 p3 p4 : Nat)
    (h1 : alget md "decision_criticality" = some (Val.str l1))
    (q1 : levelPoints "decision_criticality" l1 = some p1)
    (h2 : alget md "data_sensitivity" = some (Val.str l2))
    (q2 : levelPoints "data_sensitivity" l2 = some p2)
    (h3 : alget md "automation_level" = some (Val.str l3))
    (q3 : levelPoints "automation_level" l3 = some p3)
    (h4 : alget md "regulatory_materiality" = some (Val.str l4))
    (q4 : levelPoints "regulatory_materiality" l4 = some p4) :
    scoreFactors md RISK_SCORING_TABLE FACTORS =
      some (p1 + (p2 + (p3 + (p4 + 0))),
        [("decision_criticality", l1, p1), ("data_sensitivity", l2, p2),
         ("automation_level", l3, p3), ("regulatory_materiality", l4, p4)]) := by
  have e1 : alget RISK_SCORING_TABLE "decision_criticality" =
      some [("Low", 1), ("Medium", 2), ("High", 3)] := rfl
  have e2 : alget RISK_SCORING_TABLE "data_sensitivity" =
      some [("Public", 1), ("Confidential", 2), ("Restricted", 3)] := rfl
  have e3 : alget RISK_SCORING_TABLE "automation_level" =
      some [("Manual", 1), ("Semi-Automated", 2), ("Fully Automated", 3)] := rfl
  have e4 : alget RISK_SCORING_TABLE "regulatory_materiality" =
      some [("Low", 1), ("Medium", 2), ("High", 3)] := rfl
  have a1 : alget [("Low", 1), ("Medium", 2), ("High", 3)] l1 = some p1 := by
    have := q1; unfold levelPoints at this; rw [e1] at this; simpa using this
  have a2 : alget [("Public", 1), ("Confidential", 2), ("Restricted", 3)] l2 = some p2 := by
    have := q2; unfold levelPoints at this; rw [e2] at this; simpa using this
  have a3 : alget [("Manual", 1), ("Semi-Automated", 2), ("Fully Automated", 3)] l3 = some p3 := by
    have := q3; unfold levelPoints at this; rw [e3] at this; simpa using this
  have a4 : alget [("Low", 1), ("Medium", 2), ("High", 3)] l4 = some p4 := by
    have := q4; unfold levelPoints at this; rw [e4] at this; simpa using this
  rw [show FACTORS = ["decision_criticality", "data_sensitivity", "automation_level",
        "regulatory_materiality"] from rfl,
      scoreFactors_cons_found md _ _ _ l1 p1 _ h1 (levelPoints_range _ _ _ q1).1 e1 a1,
      scoreFactors_cons_found md _ _ _ l2 p2 _ h2 (levelPoints_range _ _ _ q2).1 e2 a2,
      scoreFactors_cons_found md _ _ _ l3 p3 _ h3 (levelPoints_range _ _ _ q3).1 e3 a3,
      scoreFactors_cons_found md _ _ _ l4 p4 _ h4 (levelPoints_range _ _ _ q4).1 e4 a4]
  rfl

lemma scoreFactors_congr (md1 md2 : List (String × Val))
    (table : List (String × List (String × Nat))) :
    ∀ (fs : List String), (∀ f ∈ fs, alget md1 f = alget md2 f) →
      scoreFactors md1 table fs = scoreFactors md2 table fs
  | [], _ => rfl
  | f :: fs, h => by
    have hf : alget md1 f = alget md2 f := h f (List.mem_cons_self f fs)
    have ht : ∀ g ∈ fs, alget md1 g = alget md2 g := fun g hg => h g (List.mem_cons_of_mem f hg)
    have ih := scoreFactors_congr md1 md2 table fs ht
    simp only [scoreFactors, hf, ih]

lemma scoreFactors_keys_sublist (md : List (String × Val))
    (table : List (String × List (String × Nat))) :
    ∀ (fs : List String) (t : Nat) (b : List (String × String × Nat)),
      scoreFactors md table fs = some (t, b) →
      List.Sublist (b.map (fun e => e.1)) fs := by
  intro fs
  induction fs with
  | nil =>
    intro t b h
    simp only [scoreFactors, Option.some.injEq, Prod.mk.injEq] at h
    rw [← h.2]
    simp
  | cons f fs ih =>
    intro t b h
    simp only [scoreFactors] at h
    cases hval : alget md f with
    | none =>
      rw [hval] at h
      exact (ih t b h).cons f
    | some v =>
      rw [hval] at h
      simp only at h
      by_cases hv : pyTruthy v = true
      · rw [if_pos hv] at h
        cases htf : alget table f with
        | none => rw [htf] at h; simp at h
        | some sub =>
          rw [htf] at h
          simp only at h
          cases v with
          | str lvl =>
            simp only at h
            cases hpl : alget sub lvl with
            | none =>
              rw [hpl] at h
              exact (ih t b h).cons f
            | some pts =>
              rw [hpl] at h
              simp only at h
              cases hsf : scoreFactors md table fs with
              | none => rw [hsf] at h; simp at h
              | some r =>
                rw [hsf] at h
                simp only [Option.map_some', Option.some.injEq, Prod.mk.injEq] at h
                rw [← h.2]
                simp only [List.map_cons]
                exact List.Sublist.cons₂ f (ih r.1 r.2 (by rw [hsf]))
          | int n => simp only at h; exact (ih t b h).cons f
          | obj l => simp only at h; exact (ih t b h).cons f
          | null => simp only at h; exact (ih t b h).cons f
      · rw [if_neg hv] at h
        exact (ih t b h).cons f

/-! ## Claim C3 -/

/-- Claim C3: whenever the four risk-factor selections of a record are
recognized levels of the configured scoring table, the returned
inherent_risk_score is exactly the sum of the four configured point
values. -/
theorem c3_score_is_sum_of_points (md : List (String × Val)) (l1 l2 l3 l4 : String)
    (p1 p2 p3 p4 : Nat)
    (h1 : alget md "decision_criticality" = some (Val.str l1))
    (q1 : levelPoints "decision_criticality" l1 = some p1)
    (h2 : alget md "data_sensitivity" = some (Val.str l2))
    (q2 : levelPoints "data_sensitivity" l2 = some p2)
    (h3 : alget md "automation_level" = some (Val.str l3))
    (q3 : levelPoints "automation_level" l3 = some p3)
    (h4 : alget md "regulatory_materiality" = some (Val.str l4))
    (q4 : levelPoints "regulatory_materiality" l4 = some p4) :
    ∃ res, calculate_inherent_risk md RISK_SCORING_TABLE TIER_THRESHOLDS SCORING_VERSION =
        some res ∧ res.inherent_risk_score = p1 + p2 + p3 + p4 := by
  have hs := scoreFactors_found md l1 l2 l3 l4 p1 p2 p3 p4 h1 q1 h2 q2 h3 q3 h4 q4
  refine ⟨{ inherent_risk_score := p1 + (p2 + (p3 + (p4 + 0))),
            proposed_risk_tier := (findTier TIER_THRESHOLDS (p1 + (p2 + (p3 + (p4 + 0))))).1,
            proposed_tier_description :=
              (findTier TIER_THRESHOLDS (p1 + (p2 + (p3 + (p4 + 0))))).2,
            score_breakdown :=
              [("decision_criticality", l1, p1), ("data_sensitivity", l2, p2),
               ("automation_level", l3, p3), ("regulatory_materiality", l4, p4)],
            scoring_version := SCORING_VERSION }, ?_, ?_⟩
  · unfold calculate_inherent_risk
    rw [hs]
    rfl
  · show p1 + (p2 + (p3 + (p4 + 0))) = p1 + p2 + p3 + p4
    omega

/-- Witness for claim C3: the selections High, Restricted, Fully
Automated, High — each worth 3 points — total 12. -/
theorem c3_score_is_sum_witness :
    ∃ res, calculate_inherent_risk
        [("decision_criticality", Val.str "High"), ("data_sensitivity", Val.str "Restricted"),
         ("automation_level", Val.str "Fully Automated"),
         ("regulatory_materiality", Val.str "High")]
        RISK_SCORING_TABLE TIER_THRESHOLDS SCORING_VERSION = some res ∧
      res.inherent_risk_score = 12 :=
  c3_score_is_sum_of_points _ "High" "Restricted" "Fully Automated" "High" 3 3 3 3
    rfl rfl rfl rfl rfl rfl rfl rfl

/-! ## Claim C8 -/

/-- Claim C8: the score breakdown lists the factors in the fixed
configuration order (decision_criticality, data_sensitivity,
automation_level, regulatory_materiality) independently of the
insertion order of the user input — any two detail dicts that agree on
the four factor lookups produce identical scoring output, and every
breakdown is a sublist of the fixed factor order. -/
theorem c8_breakdown_fixed_order (md1 md2 : List (String × Val))
    (table : List (String × List (String × Nat)))
    (th : List (String × Nat × Nat × String)) (v : String)
    (h : ∀ f ∈ FACTORS, alget md1 f = alget md2 f) :
    calculate_inherent_risk md1 table th v = calculate_inherent_risk md2 table th v ∧
    ∀ res, calculate_inherent_risk md1 table th v = some res →
      List.Sublist (res.score_breakdown.map (fun e => e.1)) FACTORS := by
  constructor
  · unfold calculate_inherent_risk
    rw [scoreFactors_congr md1 md2 table FACTORS h]
  · intro res hres
    unfold calculate_inherent_risk at hres
    cases hsf : scoreFactors md1 table FACTORS with
    | none => rw [hsf] at hres; simp at hres
    | some r =>
      rw [hsf] at hres
      simp only [Option.map_some', Option.some.injEq] at hres
      have hbd : res.score_breakdown = r.2 := by rw [← hres]
      rw [hbd]
      exact scoreFactors_keys_sublist md1 table FACTORS r.1 r.2 (by rw [hsf])

/-- Witness for claim C8: a details dict inserted in scrambled order and
one in configuration order score identically, and the breakdown keys
follow the fixed factor order. -/
theorem c8_breakdown_fixed_order_witness :
    calculate_inherent_risk
        [("regulatory_materiality", Val.str "High"), ("decision_criticality", Val.str "Medium"),
         ("automation_level", Val.str "Semi-Automated"),
         ("data_sensitivity", Val.str "Confidential")]
        RISK_SCORING_TABLE TIER_THRESHOLDS SCORING_VERSION =
      calculate_inherent_risk
        [("decision_criticality", Val.str "Medium"), ("data_sensitivity", Val.str "Confidential"),
         ("automation_level", Val.str "Semi-Automated"),
         ("regulatory_materiality", Val.str "High")]
        RISK_SCORING_TABLE TIER_THRESHOLDS SCORING_VERSION ∧
    ∀ res, calculate_inherent_risk
        [("regulatory_materiality", Val.str "High"), ("decision_criticality", Val.str "Medium"),
         ("automation_level", Val.str "Semi-Automated"),
         ("data_sensitivity", Val.str "Confidential")]
        RISK_SCORING_TABLE TIER_THRESHOLDS SCORING_VERSION = some res →
      List.Sublist (res.score_breakdown.map (fun e => e.1)) FACTORS :=
  c8_breakdown_fixed_order _ _ RISK_SCORING_TABLE TIER_THRESHOLDS SCORING_VERSION
    (by
      intro f hf
      simp only [FACTORS, List.mem_cons, List.not_mem_nil, or_false] at hf
      rcases hf with rfl | rfl | rfl | rfl <;> rfl)

/-! ## Claim C9 -/

/-- Claim C9: scoring is deterministic — two scoring calls on the same
details dict with the same scoring table, tier thresholds and scoring
version return identical results: the same total score, breakdown,
tier, description and version. -/
theorem c9_scoring_deterministic (md1 md2 : List (String × Val))
    (t1 t2 : List (String × List (String × Nat)))
    (th1 th2 : List (String × Nat × Nat × String)) (v1 v2 : String)
    (hmd : md1 = md2) (ht : t1 = t2) (hth : th1 = th2) (hv : v1 = v2) :
    calculate_inherent_risk md1 t1 th1 v1 = calculate_inherent_risk md2 t2 th2 v2 ∧
    ∀ r1 r2, calculate_inherent_risk md1 t1 th1 v1 = some r1 →
      calculate_inherent_risk md2 t2 th2 v2 = some r2 →
      r1.inherent_risk_score = r2.inherent_risk_score ∧
      r1.score_breakdown = r2.score_breakdown ∧
      r1.proposed_risk_tier = r2.proposed_risk_tier ∧
      r1.proposed_tier_description = r2.proposed_tier_description ∧
      r1.scoring_version = r2.scoring_version := by
  subst hmd; subst ht; subst hth; subst hv
  refine ⟨rfl, ?_⟩
  intro r1 r2 e1 e2
  rw [e1] at e2
  obtain rfl := Option.some.inj e2
  exact ⟨rfl, rfl, rfl, rfl, rfl⟩

/-- Witness for claim C9 at a concrete record and the configured
table. -/
theorem c9_scoring_deterministic_witness :
    calculate_inherent_risk
        [("decision_criticality", Val.str "Medium"), ("data_sensitivity", Val.str "Confidential"),
         ("automation_level", Val.str "Semi-Automated"), ("regulatory_materiality", Val.str "Low")]
        RISK_SCORING_TABLE TIER_THRESHOLDS SCORING_VERSION =
      calculate_inherent_risk
        [("decision_criticality", Val.str "Medium"), ("data_sensitivity", Val.str "Confidential"),
         ("automation_level", Val.str "Semi-Automated"), ("regulatory_materiality", Val.str "Low")]
        RISK_SCORING_TABLE TIER_THRESHOLDS SCORING_VERSION ∧
    ∀ r1 r2, calculate_inherent_risk
        [("decision_criticality", Val.str "Medium"), ("data_sensitivity", Val.str "Confidential"),
         ("automation_level", Val.str "Semi-Automated"), ("regulatory_materiality", Val.str "Low")]
        RISK_SCORING_TABLE TIER_THRESHOLDS SCORING_VERSION = some r1 →
      calculate_inherent_risk
        [("decision_criticality", Val.str "Medium"), ("data_sensitivity", Val.str "Confidential"),
         ("automation_level", Val.str "Semi-Automated"), ("regulatory_materiality", Val.str "Low")]
        RISK_SCORING_TABLE TIER_THRESHOLDS SCORING_VERSION = some r2 →
      r1.inherent_risk_score = r2.inherent_risk_score ∧
      r1.score_breakdown = r2.score_breakdown ∧
      r1.proposed_risk_tier = r2.proposed_risk_tier ∧
      r1.proposed_tier_description = r2.proposed_tier_description ∧
      r1.scoring_version = r2.scoring_version :=
  c9_scoring_deterministic _ _ _ _ _ _ _ _ rfl rfl rfl rfl

/-! ## Claim C10 -/

/-- Claim C10: for every record whose four risk-factor selections are
recognized keys of the configured scoring table, the computed total
lies between 4 and 12 inclusive, so the tier scan always matches and
the fallback tier "Unknown" is unreachable. -/
theorem c10_valid_selections_always_tiered (md : List (String × Val)) (l1 l2 l3 l4 : String)
    (p1 p2 p3 p4 : Nat)
    (h1 : alget md "decision_criticality" = some (Val.str l1))
    (q1 : levelPoints "decision_criticality" l1 = some p1)
    (h2 : alget md "data_sensitivity" = some (Val.str l2))
    (q2 : levelPoints "data_sensitivity" l2 = some p2)
    (h3 : alget md "automation_level" = some (Val.str l3))
    (q3 : levelPoints "automation_level" l3 = some p3)
    (h4 : alget md "regulatory_materiality" = some (Val.str l4))
    (q4 : levelPoints "regulatory_materiality" l4 = some p4) :
    ∃ res, calculate_inherent_risk md RISK_SCORING_TABLE TIER_THRESHOLDS SCORING_VERSION =
        some res ∧ 4 ≤ res.inherent_risk_score ∧ res.inherent_risk_score ≤ 12 ∧
      res.proposed_risk_tier ≠ "Unknown" := by
  have hs := scoreFactors_found md l1 l2 l3 l4 p1 p2 p3 p4 h1 q1 h2 q2 h3 q3 h4 q4
  obtain ⟨-, hlo1, hhi1⟩ := levelPoints_range _ _ _ q1
  obtain ⟨-, hlo2, hhi2⟩ := levelPoints_range _ _ _ q2
  obtain ⟨-, hlo3, hhi3⟩ := levelPoints_range _ _ _ q3
  obtain ⟨-, hlo4, hhi4⟩ := levelPoints_range _ _ _ q4
  refine ⟨{ inherent_risk_score := p1 + (p2 + (p3 + (p4 + 0))),
            proposed_risk_tier := (findTier TIER_THRESHOLDS (p1 + (p2 + (p3 + (p4 + 0))))).1,
            proposed_tier_description :=
              (findTier TIER_THRESHOLDS (p1 + (p2 + (p3 + (p4 + 0))))).2,
            score_breakdown :=
              [("decision_criticality", l1, p1), ("data_sensitivity", l2, p2),
               ("automation_level", l3, p3), ("regulatory_materiality", l4, p4)],
            scoring_version := SCORING_VERSION }, ?_, ?_, ?_, ?_⟩
  · unfold calculate_inherent_risk
    rw [hs]
    rfl
  · show 4 ≤ p1 + (p2 + (p3 + (p4 + 0)))
    omega
  · show p1 + (p2 + (p3 + (p4 + 0))) ≤ 12
    omega
  · show (findTier TIER_THRESHOLDS (p1 + (p2 + (p3 + (p4 + 0))))).1 ≠ "Unknown"
    exact findTier_in_range_ne_unknown _ (by omega) (by omega)

/-- Witness for claim C10: the selections Medium, Confidential,
Semi-Automated, Low score 7 and fall in the Low tier, not Unknown. -/
theorem c10_valid_selections_witness :
    ∃ res, calculate_inherent_risk
        [("decision_criticality", Val.str "Medium"), ("data_sensitivity", Val.str "Confidential"),
         ("automation_level", Val.str "Semi-Automated"), ("regulatory_materiality", Val.str "Low")]
        RISK_SCORING_TABLE TIER_THRESHOLDS SCORING_VERSION = some res ∧
      4 ≤ res.inherent_risk_score ∧ res.inherent_risk_score ≤ 12 ∧
      res.proposed_risk_tier ≠ "Unknown" :=
  c10_valid_selections_always_tiered _ "Medium" "Confidential" "Semi-Automated" "Low" 2 2 2 1
    rfl rfl rfl rfl rfl rfl rfl rfl

/-! ## Claim C5 -/

/-- Claim C5 (against the spec-modelled normalizer, the source one being
absent from src/): normalizing raw input that already carries an
identifier preserves that identifier verbatim, a carried creation
timestamp is never overwritten, and normalizing the produced record a
second time — with different fresh-identifier and clock inputs —
reproduces the record unchanged, identifier and timestamp included. -/
theorem c5_renormalization_preserves_identity (freshId now freshId2 now2 : String)
    (raw : RawDetails) (i t : String) (rec : ModelRecord)
    (hid : raw.model_id = some i) (hts : raw.registered_at = some t)
    (hok : normalizeRaw freshId now raw = Except.ok rec) :
    rec.model_id = i ∧ rec.registered_at = t ∧
    normalizeRaw freshId2 now2 (recordToRaw rec) = Except.ok rec := by
  unfold normalizeRaw at hok
  by_cases hm : missingRaw raw = []
  · rw [if_pos hm] at hok
    obtain rfl := Except.ok.inj hok
    refine ⟨by simp [hid], by simp [hts], ?_⟩
    unfold normalizeRaw
    have hm2 : missingRaw (recordToRaw
        { model_name := raw.model_name
          business_use := raw.business_use
          domain := raw.domain
          model_type := raw.model_type
          decision_criticality := raw.decision_criticality
          data_sensitivity := raw.data_sensitivity
          automation_level := raw.automation_level
          deployment_mode := raw.deployment_mode
          regulatory_materiality := raw.regulatory_materiality
          owner_team := raw.owner_team
          model_stage := raw.model_stage
          deployment_region := raw.deployment_region
          model_id := raw.model_id.getD freshId
          registered_at := raw.registered_at.getD now }) = [] := by
      simpa [missingRaw, requiredRaw, recordToRaw] using hm
    rw [if_pos hm2]
    simp [recordToRaw]
  · rw [if_neg hm] at hok
    cases hok

/-- Witness for claim C5: a complete raw submission carrying identifier
model-7 and timestamp 2026-01-28T18:30:00Z keeps both through a first
and a second normalization. -/
theorem c5_renormalization_witness :
    (⟨"Test Model v1.0", "Predicts equipment failures", "Operations Efficiency",
      "ML classifier (time-series)", "High", "Restricted", "Fully Automated", "Real-time",
      "High", some "Test Team", some "Production", some "North America", "model-7",
      "2026-01-28T18:30:00Z"⟩ : ModelRecord).model_id = "model-7" ∧
    (⟨"Test Model v1.0", "Predicts equipment failures", "Operations Efficiency",
      "ML classifier (time-series)", "High", "Restricted", "Fully Automated", "Real-time",
      "High", some "Test Team", some "Production", some "North America", "model-7",
      "2026-01-28T18:30:00Z"⟩ : ModelRecord).registered_at = "2026-01-28T18:30:00Z" ∧
    normalizeRaw "fresh-2" "2027-01-01T00:00:00Z" (recordToRaw
      ⟨"Test Model v1.0", "Predicts equipment failures", "Operations Efficiency",
       "ML classifier (time-series)", "High", "Restricted", "Fully Automated", "Real-time",
       "High", some "Test Team", some "Production", some "North America", "model-7",
       "2026-01-28T18:30:00Z"⟩) = Except.ok
      ⟨"Test Model v1.0", "Predicts equipment failures", "Operations Efficiency",
       "ML classifier (time-series)", "High", "Restricted", "Fully Automated", "Real-time",
       "High", some "Test Team", some "Production", some "North America", "model-7",
       "2026-01-28T18:30:00Z"⟩ :=
  c5_renormalization_preserves_identity "fresh-1" "2026-09-09T00:00:00Z" "fresh-2"
    "2027-01-01T00:00:00Z"
    ⟨"Test Model v1.0", "Predicts equipment failures", "Operations Efficiency",
     "ML classifier (time-series)", "High", "Restricted", "Fully Automated", "Real-time",
     "High", some "Test Team", some "Production", some "North America", some "model-7",
     some "2026-01-28T18:30:00Z"⟩
    "model-7" "2026-01-28T18:30:00Z" _ rfl rfl rfl

/-! ## Claim C6 -/

/-- Claim C6: a submission with any required field empty is rejected
with a validation error naming exactly the empty required fields, and
the session state — stored record and registration flag alike — is left
unchanged, so no scored record is produced. -/
theorem c6_missing_fields_validation (freshId now : String) (f : FormInput)
    (st : SessionState) (h : missing_fields f ≠ []) :
    handleSubmit freshId now f st = (st, SubmitOutcome.validationError (missing_fields f)) ∧
    ∀ n, n ∈ missing_fields f ↔ (n, "") ∈ required_fields_check f := by
  constructor
  · unfold handleSubmit
    rw [if_neg h]
  · intro n
    unfold missing_fields
    exact mem_filter_empty_iff (required_fields_check f) n

/-- Witness for claim C6: submitting a form whose business_use is empty
reports exactly that field and leaves the empty session state
untouched. -/
theorem c6_missing_fields_witness :
    handleSubmit "fresh-1" "2026-01-28T18:30:00Z"
        ⟨"Test Model v1.0", "", "Operations Efficiency", "ML classifier (time-series)",
         "High", "Restricted", "Fully Automated", "High", "Real-time", "Test Team",
         "Production", "North America"⟩ ⟨[], false⟩ =
      (⟨[], false⟩, SubmitOutcome.validationError ["business_use"]) ∧
    ∀ n, n ∈ missing_fields
        ⟨"Test Model v1.0", "", "Operations Efficiency", "ML classifier (time-series)",
         "High", "Restricted", "Fully Automated", "High", "Real-time", "Test Team",
         "Production", "North America"⟩ ↔
      (n, "") ∈ required_fields_check
        ⟨"Test Model v1.0", "", "Operations Efficiency", "ML classifier (time-series)",
         "High", "Restricted", "Fully Automated", "High", "Real-time", "Test Team",
         "Production", "North America"⟩ :=
  c6_missing_fields_validation "fresh-1" "2026-01-28T18:30:00Z" _ _ (by decide)

/-! ## Claim C7 -/

lemma export_data_preserves (details : List (String × Val)) (nar mit oq : String)
    (fld : String) (n1 : fld ≠ "owner_risk_narrative") (n2 : fld ≠ "mitigations_proposed")
    (n3 : fld ≠ "open_questions") (n4 : fld ≠ "export_format_version") :
    alget (export_data details nar mit oq) fld = alget details fld := by
  unfold export_data pyUpdate
  simp only [List.foldl]
  rw [alget_pyInsert_ne _ _ _ _ n4, alget_pyInsert_ne _ _ _ _ n3,
      alget_pyInsert_ne _ _ _ _ n2, alget_pyInsert_ne _ _ _ _ n1]

lemma export_data_version (details : List (String × Val)) (nar mit oq : String) :
    alget (export_data details nar mit oq) "export_format_version" =
      some (Val.str "lab1_export_v1") := by
  unfold export_data pyUpdate
  simp only [List.foldl]
  exact alget_pyInsert_self _ _ _

/-- Claim C7: exporting a stored record as the envelope and feeding the
envelope back through the import path succeeds and reproduces a record
whose identifier, creation timestamp and categorical selections are all
equal to those of the exported record. -/
theorem c7_export_reimport_roundtrip (details : List (String × Val)) (nar mit oq : String)
    (hid : truthyOpt (alget details "model_id") = true)
    (hname : truthyOpt (alget details "model_name") = true) :
    ∃ env, importArtifact (export_data details nar mit oq) = some env ∧
      alget env "model_id" = alget details "model_id" ∧
      alget env "registered_at" = alget details "registered_at" ∧
      ∀ fld ∈ CATEGORICAL_FIELDS, alget env fld = alget details fld := by
  have hpid : alget (export_data details nar mit oq) "model_id" = alget details "model_id" :=
    export_data_preserves details nar mit oq _ (by decide) (by decide) (by decide) (by decide)
  have hpname : alget (export_data details nar mit oq) "model_name" =
      alget details "model_name" :=
    export_data_preserves details nar mit oq _ (by decide) (by decide) (by decide) (by decide)
  refine ⟨export_data details nar mit oq, ?_, hpid, ?_, ?_⟩
  · unfold importArtifact
    rw [export_data_version details nar mit oq]
    simp only [hpid, hpname, hid, hname]
    rfl
  · exact export_data_preserves details nar mit oq _ (by decide) (by decide) (by decide)
      (by decide)
  · intro fld hfld
    simp only [CATEGORICAL_FIELDS, List.mem_cons, List.not_mem_nil, or_false] at hfld
    rcases hfld with rfl | rfl | rfl | rfl | rfl | rfl | rfl <;>
      exact export_data_preserves details nar mit oq _ (by decide) (by decide) (by decide)
        (by decide)

/-- Witness for claim C7: the envelope exported from a concrete scored
record is accepted on re-import and keeps identifier, timestamp and all
seven categorical selections. -/
theorem c7_export_reimport_witness :
    ∃ env, importArtifact (export_data
        [("model_name", Val.str "Test Model Y"), ("business_use", Val.str "Fraud detection"),
         ("domain", Val.str "Fraud Detection"), ("model_type", Val.str "Regression"),
         ("decision_criticality", Val.str "High"), ("data_sensitivity", Val.str "Restricted"),
         ("automation_level", Val.str "Fully Automated"), ("deployment_mode", Val.str "Real-time"),
         ("regulatory_materiality", Val.str "High"), ("model_id", Val.str "test-model-y-456"),
         ("registered_at", Val.str "2023-02-01T10:00:00Z"), ("inherent_risk_score", Val.int 12),
         ("proposed_risk_tier", Val.str "High"), ("scoring_version", Val.str "1.0")]
        "A sufficiently long narrative for the minimum length gate." "" "") = some env ∧
      alget env "model_id" = alget
        [("model_name", Val.str "Test Model Y"), ("business_use", Val.str "Fraud detection"),
         ("domain", Val.str "Fraud Detection"), ("model_type", Val.str "Regression"),
         ("decision_criticality", Val.str "High"), ("data_sensitivity", Val.str "Restricted"),
         ("automation_level", Val.str "Fully Automated"), ("deployment_mode", Val.str "Real-time"),
         ("regulatory_materiality", Val.str "High"), ("model_id", Val.str "test-model-y-456"),
         ("registered_at", Val.str "2023-02-01T10:00:00Z"), ("inherent_risk_score", Val.int 12),
         ("proposed_risk_tier", Val.str "High"), ("scoring_version", Val.str "1.0")] "model_id" ∧
      alget env "registered_at" = alget
        [("model_name", Val.str "Test Model Y"), ("business_use", Val.str "Fraud detection"),
         ("domain", Val.str "Fraud Detection"), ("model_type", Val.str "Regression"),
         ("decision_criticality", Val.str "High"), ("data_sensitivity", Val.str "Restricted"),
         ("automation_level", Val.str "Fully Automated"), ("deployment_mode", Val.str "Real-time"),
         ("regulatory_materiality", Val.str "High"), ("model_id", Val.str "test-model-y-456"),
         ("registered_at", Val.str "2023-02-01T10:00:00Z"), ("inherent_risk_score", Val.int 12),
         ("proposed_risk_tier", Val.str "High"), ("scoring_version", Val.str "1.0")]
        "registered_at" ∧
      ∀ fld ∈ CATEGORICAL_FIELDS, alget env fld = alget
        [("model_name", Val.str "Test Model Y"), ("business_use", Val.str "Fraud detection"),
         ("domain", Val.str "Fraud Detection"), ("model_type", Val.str "Regression"),
         ("decision_criticality", Val.str "High"), ("data_sensitivity", Val.str "Restricted"),
         ("automation_level", Val.str "Fully Automated"), ("deployment_mode", Val.str "Real-time"),
         ("regulatory_materiality", Val.str "High"), ("model_id", Val.str "test-model-y-456"),
         ("registered_at", Val.str "2023-02-01T10:00:00Z"), ("inherent_risk_score", Val.int 12),
         ("proposed_risk_tier", Val.str "High"), ("scoring_version", Val.str "1.0")] fld :=
  c7_export_reimport_roundtrip _
    "A sufficiently long narrative for the minimum length gate." "" "" rfl rfl
